import Mathlib

/-!
Verification of the parity-ethereum browser UI components against their
natural-language specification.

The development shallowly embeds the JavaScript sources:

* `src/js/src/api/transport/error.js` — the `ERROR_CODES` table and the
  `TransportError` class (and, in the same bundle, the `Steps` step-indicator
  component);
* `src/js/src/dapps/dappreg/utils.js` — the dapp-registry write helpers
  (`registerGHH`, `registerDapp`, `deleteDapp`, `updateDappOwner`), whose
  promise chains are embedded as functions from the stubbed RPC results to an
  event trace plus an `Except` outcome;
* `src/js/src/ui/Portal/portal.js` (the bundled `Transfer` component) —
  `renderPage`, `renderCompletePage` and `renderDialogActions`;
* `src/js/src/dapps/registry/reducers.js` — the dapp-registry root reducer.

JavaScript numbers handled by the `bignumber.js` library are embedded as exact
rationals: the library converts the literal `1.2` through its decimal string
form, so `gas.mul(1.2)` multiplies by exactly 6/5, and `toFixed(0)` rounds with
the library default `ROUND_HALF_UP` (round to nearest, halves away from zero;
for the non-negative values that occur here this is `fun x => ⌊x + 1/2⌋`).
-/

/-! ## Transport errors (`src/js/src/api/transport/error.js`) -/

/-- The `ERROR_CODES` table, as an association list in the source's key
insertion order (which is the order `Object.keys` iterates for string keys). -/
def ERROR_CODES : List (String × Int) :=
  [ ("UNSUPPORTED_REQUEST", -32000),
    ("NO_WORK", -32001),
    ("NO_AUTHOR", -32002),
    ("NO_NEW_WORK", -32003),
    ("NOT_ENOUGH_DATA", -32006),
    ("UNKNOWN_ERROR", -32009),
    ("TRANSACTION_ERROR", -32010),
    ("EXECUTION_ERROR", -32015),
    ("ACCOUNT_LOCKED", -32020),
    ("PASSWORD_INVALID", -32021),
    ("ACCOUNT_ERROR", -32023),
    ("SIGNER_DISABLED", -32030),
    ("DAPPS_DISABLED", -32031),
    ("NETWORK_DISABLED", -32035),
    ("REQUEST_REJECTED", -32040),
    ("REQUEST_REJECTED_LIMIT", -32041),
    ("REQUEST_NOT_FOUND", -32042),
    ("COMPILATION_ERROR", -32050),
    ("ENCRYPTION_ERROR", -32055),
    ("FETCH_ERROR", -32060),
    ("INVALID_PARAMS", -32602) ]

/-- The fields a constructed `TransportError` instance exposes: the inherited
`message` plus the fields set in the constructor body. -/
structure TransportError where
  message : String
  code : Int
  type : String
  method : String
  text : String
deriving DecidableEq, Repr

/-- Embedding of the `TransportError` constructor:
`constructor (method, code, message)` builds
``method: code: message`` for the inherited message, stores `code`, looks the
symbolic `type` up as `Object.keys(ERROR_CODES).find((k) => ERROR_CODES[k] ===
code) || ''`, and stores `method` and `text`. -/
def TransportError.make (method : String) (code : Int) (message : String) :
    TransportError :=
  { message := method ++ ": " ++ toString code ++ ": " ++ message
    code := code
    type := ((ERROR_CODES.find? (fun p => p.2 == code)).map Prod.fst).getD ""
    method := method
    text := message }

/-- C2: the `ERROR_CODES` table is injective (no two symbolic names share a
numeric code), and a `TransportError` built from a method, a code present in
the table, and a message exposes that code, method and message text, has the
unique symbolic name of the code as its `type`, and has the concatenation
``method: code: message`` as its `message`. -/
theorem transportError_roundtrip :
    (ERROR_CODES.map Prod.snd).Nodup ∧
    ∀ (method msg k : String) (code : Int),
      (k, code) ∈ ERROR_CODES →
        (TransportError.make method code msg).code = code ∧
        (TransportError.make method code msg).method = method ∧
        (TransportError.make method code msg).text = msg ∧
        (TransportError.make method code msg).type = k ∧
        (TransportError.make method code msg).message =
          method ++ ": " ++ toString code ++ ": " ++ msg := by
  constructor
  · decide
  · have hfind : ∀ p ∈ ERROR_CODES,
        ((ERROR_CODES.find? (fun q => q.2 == p.2)).map Prod.fst).getD "" = p.1 := by
      decide
    intro method msg k code hmem
    refine ⟨rfl, rfl, rfl, ?_, rfl⟩
    simpa using hfind (k, code) hmem

/-- Witness for C2 at the concrete entry `ACCOUNT_LOCKED = -32020`. -/
theorem transportError_roundtrip_witness :
    (TransportError.make "eth_call" (-32020) "locked").type = "ACCOUNT_LOCKED" :=
  ((transportError_roundtrip.2 "eth_call" "locked" "ACCOUNT_LOCKED" (-32020)
    (by decide)).2.2.2.1)

/-- C8: constructing a `TransportError` from a code that appears nowhere in
`ERROR_CODES` yields the empty string as `type` (never an exception), while
`code`, `method` and `text` are still populated. -/
theorem transportError_unknown_code :
    ∀ (method msg : String) (code : Int),
      (∀ p ∈ ERROR_CODES, p.2 ≠ code) →
        (TransportError.make method code msg).type = "" ∧
        (TransportError.make method code msg).code = code ∧
        (TransportError.make method code msg).method = method ∧
        (TransportError.make method code msg).text = msg := by
  intro method msg code h
  refine ⟨?_, rfl, rfl, rfl⟩
  have hnone : ERROR_CODES.find? (fun p => p.2 == code) = none := by
    rw [List.find?_eq_none]
    intro p hp
    simpa using h p hp
  simp [TransportError.make, hnone]

/-- Witness for C8 at the concrete code `0`, which is not in the table. -/
theorem transportError_unknown_code_witness :
    (TransportError.make "eth_call" 0 "oops").type = "" :=
  (transportError_unknown_code "eth_call" "oops" 0 (by decide)).1

/-! ## Dapp-registry write helpers (`src/js/src/dapps/dappreg/utils.js`)

Each helper is a promise chain over three RPC primitives: a contract constant
call (`fee.call`), `estimateGas`, and `postTransaction`.  The chain is embedded
as a function from the stubbed results of those primitives to the ordered list
of RPC invocations actually performed (the event trace) together with the
`Except`-style outcome of the returned promise: a rejected promise propagates
through `.then` without running its callback, so later invocations are absent
from the trace. -/

/-- One RPC invocation performed by a dapp-registry helper.  A
`postCall` event records the numeric value of the `gas` option attached to the
submitted transaction (as the exact rational the `BigNumber` holds). -/
inductive DappRegEv where
  | feeCall : DappRegEv
  | estimateCall : DappRegEv
  | postCall (gas : ℚ) : DappRegEv
deriving DecidableEq, Repr

/-- Embedding of `BigNumber.toFixed(0)` under the library default rounding mode
`ROUND_HALF_UP` (round to nearest, halves away from zero), restricted to the
non-negative values that occur here: the numeric value of the produced string. -/
def bnToFixed0 (x : ℚ) : ℤ := ⌊x + 1/2⌋

/-- Embedding of `registerGHH(instance, url, hash, owner)`: estimate the gas of
`hintURL`, set `options.gas = gas.mul(1.2).toFixed(0)`, then post the
transaction.  `est` and `post` stub `estimateGas` and `postTransaction`. -/
def registerGHH (est : Except String ℕ) (post : Except String String) :
    List DappRegEv × Except String String :=
  match est with
  | .error e => ([.estimateCall], .error e)
  | .ok gas =>
      ([.estimateCall, .postCall ((bnToFixed0 ((gas : ℚ) * (6/5)) : ℤ) : ℚ)], post)

/-- Embedding of `registerDapp(dappId, dappRegInstance)`: read the registration
`fee`, set `options.value = fee`, estimate the gas of `register`, set
`options.gas = gas.mul(1.2).toFixed(0)`, then post the transaction. -/
def registerDapp (fee : Except String ℚ) (est : Except String ℕ)
    (post : Except String String) : List DappRegEv × Except String String :=
  match fee with
  | .error e => ([.feeCall], .error e)
  | .ok _ =>
      match est with
      | .error e => ([.feeCall, .estimateCall], .error e)
      | .ok gas =>
          ([.feeCall, .estimateCall,
            .postCall ((bnToFixed0 ((gas : ℚ) * (6/5)) : ℤ) : ℚ)], post)

/-- Embedding of `deleteDapp(dappId, dappOwner, dappRegInstance)`: estimate the
gas of `unregister`, set `options.gas = gas.mul(1.2).toFixed(0)`, then post
the transaction. -/
def deleteDapp (est : Except String ℕ) (post : Except String String) :
    List DappRegEv × Except String String :=
  match est with
  | .error e => ([.estimateCall], .error e)
  | .ok gas =>
      ([.estimateCall, .postCall ((bnToFixed0 ((gas : ℚ) * (6/5)) : ℤ) : ℚ)], post)

/-- Embedding of `updateDappOwner(dappId, dappOwner, nextOwnerAddress,
dappRegInstance)`: estimate the gas of `setDappOwner` and set
`options.gas = gas.mul(1.2)` — unlike the other helpers, without `toFixed(0)`,
so the attached gas is the exact product. -/
def updateDappOwner (est : Except String ℕ) (post : Except String String) :
    List DappRegEv × Except String String :=
  match est with
  | .error e => ([.estimateCall], .error e)
  | .ok gas => ([.estimateCall, .postCall ((gas : ℚ) * (6/5))], post)

/-- The gas limit the claim says is attached: `ceil(g * 1.2)`. -/
def ceilGas (g : ℕ) : ℤ := ⌈(g : ℚ) * (6/5)⌉

/-- Round-half-up of `g * 1.2` in closed form over the naturals. -/
def halfUpGas (g : ℕ) : ℕ := (12 * g + 5) / 10

theorem bnToFixed0_mul12 (g : ℕ) :
    bnToFixed0 ((g : ℚ) * (6/5)) = (halfUpGas g : ℤ) := by
  have hx : (g : ℚ) * (6/5) + 1/2 = ((12 * g + 5 : ℕ) : ℚ) / ((10 : ℕ) : ℚ) := by
    push_cast
    ring
  rw [bnToFixed0, hx, Rat.floor_natCast_div_natCast]
  rw [halfUpGas]
  push_cast
  rfl

/-! ## The Transfer modal (`src/js/src/ui/Portal/portal.js` bundle)

The `Transfer` component renders from a MobX `TransferStore`.  The store class
itself is outside the embedded sources; the component reads only the observable
fields below, so the render functions are embedded as pure functions of a view
of those fields.  JavaScript truthiness of the string-or-null observables
(`operation`) is embedded as: `none` (null/undefined) and the empty string are
falsy. -/

/-- The observable `TransferStore` fields read by the `Transfer` component's
render functions. -/
structure TransferStoreView where
  stage : ℕ
  extras : Bool
  sending : Bool
  isValid : Bool
  rejected : Bool
  txhash : Option String
  operation : Option String
  busyState : String
deriving DecidableEq, Repr

/-- The label of a dialog-action button. -/
inductive BtnLabel where
  | cancel : BtnLabel
  | next : BtnLabel
  | back : BtnLabel
  | send : BtnLabel
  | close : BtnLabel
deriving DecidableEq, Repr

/-- A rendered dialog-action button: its label and its `disabled` flag. -/
structure Btn where
  label : BtnLabel
  disabled : Bool
deriving DecidableEq, Repr

/-- Embedding of `renderDialogActions()`: the button rows per stage.
`nextBtn` is disabled iff `!this.store.isValid`; `sendBtn` is disabled iff
`!this.store.isValid || sending`; `cancelBtn`, `prevBtn` and `doneBtn` are
never disabled. -/
def renderDialogActions (s : TransferStoreView) : List Btn :=
  let cancelBtn : Btn := ⟨.cancel, false⟩
  let nextBtn : Btn := ⟨.next, !s.isValid⟩
  let prevBtn : Btn := ⟨.back, false⟩
  let sendBtn : Btn := ⟨.send, !s.isValid || s.sending⟩
  let doneBtn : Btn := ⟨.close, false⟩
  match s.stage with
  | 0 => if s.extras then [cancelBtn, nextBtn] else [cancelBtn, sendBtn]
  | 1 => if s.extras then [cancelBtn, prevBtn, sendBtn] else [doneBtn]
  | _ => [doneBtn]

/-- Which of the three pages `renderPage()` renders. -/
inductive TransferPage where
  | details : TransferPage
  | extrasPage : TransferPage
  | complete : TransferPage
deriving DecidableEq, Repr

/-- Embedding of `renderPage()`: details at stage 0, the extras page at stage 1
when extras are enabled, and the completion page otherwise. -/
def renderPage (s : TransferStoreView) : TransferPage :=
  if s.stage = 0 then .details
  else if s.stage = 1 ∧ s.extras = true then .extrasPage
  else .complete

/-- What `renderCompletePage()` renders: the rejected busy step, the
in-progress busy step, or the completed step carrying the transaction hash and
the (truthy) operation hash when present. -/
inductive CompletePage where
  | busyRejected : CompletePage
  | busySending (busyState : String) : CompletePage
  | completed (txhash : Option String) (operation : Option String) : CompletePage
deriving DecidableEq, Repr

/-- Embedding of `renderCompletePage()`: `rejected` wins, then `sending`, and
otherwise a `CompletedStep` with `TxHash hash={txhash}` plus the operation
input shown only when `this.store.operation` is truthy. -/
def renderCompletePage (s : TransferStoreView) : CompletePage :=
  if s.rejected then .busyRejected
  else if s.sending then .busySending s.busyState
  else
    .completed s.txhash
      (match s.operation with
       | none => none
       | some op => if op = "" then none else some op)

/-- Modelled from the spec: `TransferStore.onPrev`, the handler of the "Back"
button, is not among the embedded sources (`store.js` is outside `src/`); the
spec's state machine has the single back transition Extras → Details, i.e.
from stage 1 back to stage 0. -/
def onPrev (stage : ℕ) : ℕ := stage - 1

/-! ## The `Steps` step indicator (bundled with `error.js` under
`src/js/src/api/transport/`) -/

/-- Embedding of the `Steps` component: `null` when fewer than two steps,
otherwise one entry per step label carrying the `completed` flag
(`activeStep > index`) and the `active` flag (`activeStep === index`). -/
def Steps (activeStep : ℕ) (steps : List String) :
    Option (List (String × Bool × Bool)) :=
  if steps.length < 2 then none
  else
    some (steps.mapIdx (fun index label =>
      (label, decide (activeStep > index), decide (activeStep = index))))

/-! ## The dapp-registry root reducer (`src/js/src/dapps/registry/reducers.js`)

The sub-reducers (`accounts`, `lookup`, `events`, `register`) live in files
outside the embedded sources; the root reducer only dispatches to them, so they
are parameters of the embedding.  `action.type.slice(0, n)` is `String.take n`
(both return the whole string when it is shorter than `n`). -/

/-- A dispatched action as the root reducer sees it: its `type` tag and the
payload fields the three `set` branches read.  `V` is the payload type. -/
structure RegAction (V : Type) where
  type : String
  contract : V
  fee : V
  owner : V

/-- The dapp-registry state shape: the three scalar fields owned by the root
reducer and the four sub-states owned by the sub-reducers. -/
structure RegState (A L E R V : Type) where
  accounts : A
  contract : V
  fee : V
  owner : V
  lookup : L
  events : E
  register : R
deriving DecidableEq, Repr

/-- Embedding of the root reducer: dispatch on `action.type` in source order —
the `accounts` prefix, the three exact `set` types, then the `lookup`,
`events` and `register` prefixes — and otherwise return the state unchanged. -/
def rootReducer {A L E R V : Type}
    (accountsReducer : A → RegAction V → A)
    (lookupReducer : L → RegAction V → L)
    (eventsReducer : E → RegAction V → E)
    (registerReducer : R → RegAction V → R)
    (state : RegState A L E R V) (action : RegAction V) : RegState A L E R V :=
  if action.type.take 8 = "accounts" then
    { state with accounts := accountsReducer state.accounts action }
  else if action.type = "set contract" then
    { state with contract := action.contract }
  else if action.type = "set fee" then
    { state with fee := action.fee }
  else if action.type = "set owner" then
    { state with owner := action.owner }
  else if action.type.take 6 = "lookup" then
    { state with lookup := lookupReducer state.lookup action }
  else if action.type.take 6 = "events" then
    { state with events := eventsReducer state.events action }
  else if action.type.take 8 = "register" then
    { state with register := registerReducer state.register action }
  else state

/-! ## Claims about the dapp-registry write helpers -/

/-- C1 counterexample: at a gas estimate of 2, `registerGHH` attaches a gas
limit of 2 (round-half-up of 2.4) while `ceil(2 * 1.2) = 3`, and
`updateDappOwner` attaches the unrounded 12/5, which is not even the integer 3. -/
theorem gas_ceil_counterexample :
    registerGHH (.ok 2) (.ok "0xtx")
      = ([.estimateCall, .postCall 2], .ok "0xtx") ∧
    ceilGas 2 = 3 ∧ (2 : ℚ) ≠ 3 ∧
    updateDappOwner (.ok 2) (.ok "0xtx")
      = ([.estimateCall, .postCall (12/5)], .ok "0xtx") ∧
    (12/5 : ℚ) ≠ 3 := by
  have hb : bnToFixed0 ((2 : ℚ) * (6/5)) = 2 := by
    rw [bnToFixed0, Int.floor_eq_iff]
    norm_num
  refine ⟨?_, ?_, by norm_num, ?_, by norm_num⟩
  · simp [registerGHH, hb]
  · rw [ceilGas, Int.ceil_eq_iff]
    norm_num
  · simp [updateDappOwner]
    norm_num

/-- C1 amended: on a successful estimate `g`, `registerGHH`, `registerDapp`
and `deleteDapp` attach the gas limit `(12 * g + 5) / 10` (that is, `g * 1.2`
rounded half-up, which differs from `ceil(g * 1.2)` when `g % 5 ∈ {1, 2}`),
while `updateDappOwner` attaches the exact unrounded product `g * 1.2`. -/
theorem gas_multiplier_halfup (g : ℕ) (fee : ℚ) (post : Except String String) :
    (registerGHH (.ok g) post).1
      = [.estimateCall, .postCall ((halfUpGas g : ℕ) : ℚ)] ∧
    (registerDapp (.ok fee) (.ok g) post).1
      = [.feeCall, .estimateCall, .postCall ((halfUpGas g : ℕ) : ℚ)] ∧
    (deleteDapp (.ok g) post).1
      = [.estimateCall, .postCall ((halfUpGas g : ℕ) : ℚ)] ∧
    (updateDappOwner (.ok g) post).1
      = [.estimateCall, .postCall ((g : ℚ) * (6/5))] := by
  refine ⟨?_, ?_, ?_, rfl⟩ <;>
    simp [registerGHH, registerDapp, deleteDapp, bnToFixed0_mul12]

/-- C5: in every dapp-registry write helper, a failed gas estimation produces
no `postTransaction` call and propagates the estimation error as the helper's
outcome, and a successful estimation produces a trace in which the
`estimateGas` call strictly precedes the single `postTransaction` call. -/
theorem dappreg_estimate_before_post (e : String) (g : ℕ) (fee : ℚ)
    (post : Except String String) :
    ((registerGHH (.error e) post).1 = [.estimateCall] ∧
      (registerGHH (.error e) post).2 = .error e) ∧
    ((registerDapp (.ok fee) (.error e) post).1 = [.feeCall, .estimateCall] ∧
      (registerDapp (.ok fee) (.error e) post).2 = .error e) ∧
    ((deleteDapp (.error e) post).1 = [.estimateCall] ∧
      (deleteDapp (.error e) post).2 = .error e) ∧
    ((updateDappOwner (.error e) post).1 = [.estimateCall] ∧
      (updateDappOwner (.error e) post).2 = .error e) ∧
    (∃ q, (registerGHH (.ok g) post).1 = [.estimateCall, .postCall q]) ∧
    (∃ q, (registerDapp (.ok fee) (.ok g) post).1
      = [.feeCall, .estimateCall, .postCall q]) ∧
    (∃ q, (deleteDapp (.ok g) post).1 = [.estimateCall, .postCall q]) ∧
    (∃ q, (updateDappOwner (.ok g) post).1 = [.estimateCall, .postCall q]) := by
  exact ⟨⟨rfl, rfl⟩, ⟨rfl, rfl⟩, ⟨rfl, rfl⟩, ⟨rfl, rfl⟩,
    ⟨_, rfl⟩, ⟨_, rfl⟩, ⟨_, rfl⟩, ⟨_, rfl⟩⟩

/-! ## Claims about the Transfer modal -/

/-- C3 counterexample: in a store state with a send in progress
(`sending = true`) but a valid form, at stage 0 with extras enabled, the Next
action is offered and is not disabled — only `!isValid` feeds Next's
`disabled` flag, so a send in progress does not disable it. -/
theorem transfer_sending_next_counterexample :
    (TransferStoreView.mk 0 true true true false none none "").sending = true ∧
    renderDialogActions (TransferStoreView.mk 0 true true true false none none "")
      = [⟨.cancel, false⟩, ⟨.next, false⟩] :=
  ⟨rfl, rfl⟩

/-- C3 amended: whenever the store reports a validation error
(`isValid = false`), every offered Next and Send action is disabled; a send in
progress (`sending = true`) additionally disables every offered Send action
(but not Next, whose disabled flag reads only `isValid`). -/
theorem transfer_invalid_disables (s : TransferStoreView) (b : Btn)
    (hb : b ∈ renderDialogActions s) :
    (s.isValid = false → (b.label = .next ∨ b.label = .send) →
      b.disabled = true) ∧
    (s.sending = true → b.label = .send → b.disabled = true) := by
  obtain ⟨stage, extras, sending, isValid, rj, tx, op, bs⟩ := s
  rcases stage with _ | _ | n <;> cases extras <;> cases isValid <;>
    cases sending <;> simp [renderDialogActions] at hb <;>
    rcases hb with rfl | rfl | rfl <;> simp

/-- Witness for C3 (amended) at a concrete invalid store state: the Send
action offered at stage 0 without extras is disabled. -/
theorem transfer_invalid_disables_witness :
    (Btn.mk .send true).disabled = true :=
  (transfer_invalid_disables (TransferStoreView.mk 0 false false false false none none "")
    (Btn.mk .send true) (by decide)).1 rfl (Or.inr rfl)

/-- C4: from stage 2 on (Submitting/Completed/Rejected) the only offered
action is Close (never disabled), a Back action is offered exactly at stage 1
with extras enabled (and exactly one of them), and the modelled Back handler
returns from stage 1 (Extras) to stage 0 (Details); hence no
Submitting-to-Details transition is ever offered. -/
theorem transfer_stage_transitions (s : TransferStoreView) :
    (2 ≤ s.stage → renderDialogActions s = [⟨.close, false⟩]) ∧
    (((renderDialogActions s).map Btn.label).count .back
      = if s.stage = 1 ∧ s.extras = true then 1 else 0) ∧
    onPrev 1 = 0 := by
  obtain ⟨stage, extras, sending, isValid, rj, tx, op, bs⟩ := s
  refine ⟨?_, ?_, rfl⟩ <;>
    rcases stage with _ | _ | n <;> cases extras <;>
      simp [renderDialogActions, List.count_cons]

/-- Witness for C4 at a concrete stage-2 store state. -/
theorem transfer_stage_transitions_witness :
    renderDialogActions (TransferStoreView.mk 2 false false false false none none "")
      = [⟨.close, false⟩] :=
  (transfer_stage_transitions
    (TransferStoreView.mk 2 false false false false none none "")).1 (by norm_num)

/-- C6: when the store is neither rejected nor sending, the completion page is
the completed step carrying exactly the store's transaction hash, and when a
(truthy) multi-owner pending-operation hash was produced it is exposed
unchanged alongside. -/
theorem transfer_complete_hash (s : TransferStoreView)
    (h1 : s.rejected = false) (h2 : s.sending = false) :
    (∃ o, renderCompletePage s = .completed s.txhash o) ∧
    ∀ op, s.operation = some op → op ≠ "" →
      renderCompletePage s = .completed s.txhash (some op) := by
  obtain ⟨stage, extras, sending, isValid, rj, tx, op, bs⟩ := s
  dsimp at h1 h2
  subst h1 h2
  refine ⟨⟨_, rfl⟩, ?_⟩
  intro o ho hne
  dsimp at ho
  subst ho
  simp [renderCompletePage, hne]

/-- Witness for C6 at a concrete completed store state with an operation
hash. -/
theorem transfer_complete_hash_witness :
    renderCompletePage
      (TransferStoreView.mk 2 false false false false (some "0xabc") (some "0xop") "")
      = .completed (some "0xabc") (some "0xop") :=
  (transfer_complete_hash
    (TransferStoreView.mk 2 false false false false (some "0xabc") (some "0xop") "")
    rfl rfl).2 "0xop" rfl (by decide)

/-- C9: exactly one of the three pages is rendered for every (stage, extras)
pair — details iff stage 0, the extras page iff stage 1 with extras enabled,
the completion page otherwise — and with extras disabled, stage 0 offers Send
directly (Cancel/Send, no Next) while stage 1 already renders the completion
page with only a Close action. -/
theorem transfer_page_exclusive (s : TransferStoreView) :
    (renderPage s = .details ↔ s.stage = 0) ∧
    (renderPage s = .extrasPage ↔ (s.stage = 1 ∧ s.extras = true)) ∧
    (renderPage s = .complete ↔
      (¬ s.stage = 0 ∧ ¬ (s.stage = 1 ∧ s.extras = true))) ∧
    (s.extras = false → s.stage = 0 →
      (renderDialogActions s).map Btn.label = [.cancel, .send]) ∧
    (s.extras = false → s.stage = 1 →
      renderPage s = .complete ∧
      (renderDialogActions s).map Btn.label = [.close]) := by
  obtain ⟨stage, extras, sending, isValid, rj, tx, op, bs⟩ := s
  rcases stage with _ | _ | n <;> cases extras <;>
    simp [renderPage, renderDialogActions]

/-- Witness for C9 at a concrete extras-disabled, stage-1 store state. -/
theorem transfer_page_exclusive_witness :
    renderPage (TransferStoreView.mk 1 false false false false none none "")
      = .complete :=
  ((transfer_page_exclusive
    (TransferStoreView.mk 1 false false false false none none "")).2.2.2.2
    rfl rfl).1

/-! ## Claims about the `Steps` indicator and the dapp-registry reducer -/

/-- C7: whenever the step indicator renders (two or more steps), it renders
one entry per step label; the entry at index `i` is flagged completed exactly
when `i` is below `activeStep` and active exactly when `i` equals
`activeStep` (so indices above `activeStep` are neither), and at most one
entry is flagged active. -/
theorem steps_single_active (a : ℕ) (steps : List String)
    (out : List (String × Bool × Bool)) (h : Steps a steps = some out) :
    out.length = steps.length ∧
    (∀ i (hi : i < out.length),
      (out.get ⟨i, hi⟩).2.1 = decide (a > i) ∧
      (out.get ⟨i, hi⟩).2.2 = decide (a = i)) ∧
    (∀ i j (hi : i < out.length) (hj : j < out.length),
      (out.get ⟨i, hi⟩).2.2 = true → (out.get ⟨j, hj⟩).2.2 = true → i = j) := by
  rw [Steps] at h
  split at h
  · exact absurd h (by simp)
  · rw [Option.some_inj] at h
    subst h
    refine ⟨by simp, ?_, ?_⟩
    · intro i hi
      have hi' : i < steps.length := by simpa using hi
      rw [List.get_mapIdx _ _ _ hi']
      exact ⟨rfl, rfl⟩
    · intro i j hi hj h1 h2
      have hi' : i < steps.length := by simpa using hi
      have hj' : j < steps.length := by simpa using hj
      rw [List.get_mapIdx _ _ _ hi'] at h1
      rw [List.get_mapIdx _ _ _ hj'] at h2
      simp at h1 h2
      omega

/-- Witness for C7 at `activeStep = 1` over three steps. -/
theorem steps_single_active_witness :
    ([("a", true, false), ("b", false, true), ("c", false, false)]
        : List (String × Bool × Bool)).length
      = (["a", "b", "c"] : List String).length :=
  (steps_single_active 1 ["a", "b", "c"]
    [("a", true, false), ("b", false, true), ("c", false, false)] (by decide)).1

/-- C10: an action whose type is none of the three `set` types and does not
begin with any of the `accounts`, `lookup`, `events`, `register` prefixes
leaves the dapp-registry state unchanged, and each `set` action rewrites
exactly its own field (`contract`, `fee`, `owner`), leaving every other field
of the state unchanged. -/
theorem rootReducer_frame {A L E R V : Type}
    (accountsReducer : A → RegAction V → A)
    (lookupReducer : L → RegAction V → L)
    (eventsReducer : E → RegAction V → E)
    (registerReducer : R → RegAction V → R)
    (state : RegState A L E R V) (action : RegAction V) :
    (action.type.take 8 ≠ "accounts" → action.type ≠ "set contract" →
      action.type ≠ "set fee" → action.type ≠ "set owner" →
      action.type.take 6 ≠ "lookup" → action.type.take 6 ≠ "events" →
      action.type.take 8 ≠ "register" →
      rootReducer accountsReducer lookupReducer eventsReducer registerReducer
        state action = state) ∧
    (action.type = "set contract" →
      rootReducer accountsReducer lookupReducer eventsReducer registerReducer
        state action = { state with contract := action.contract }) ∧
    (action.type = "set fee" →
      rootReducer accountsReducer lookupReducer eventsReducer registerReducer
        state action = { state with fee := action.fee }) ∧
    (action.type = "set owner" →
      rootReducer accountsReducer lookupReducer eventsReducer registerReducer
        state action = { state with owner := action.owner }) := by
  refine ⟨?_, ?_, ?_, ?_⟩
  · intro h1 h2 h3 h4 h5 h6 h7
    unfold rootReducer
    rw [if_neg h1, if_neg h2, if_neg h3, if_neg h4, if_neg h5, if_neg h6,
      if_neg h7]
  · intro h
    unfold rootReducer
    rw [h, if_neg (by decide : ¬("set contract".take 8 = "accounts")),
      if_pos rfl]
  · intro h
    unfold rootReducer
    rw [h, if_neg (by decide : ¬("set fee".take 8 = "accounts")),
      if_neg (by decide : ¬("set fee" = "set contract")), if_pos rfl]
  · intro h
    unfold rootReducer
    rw [h, if_neg (by decide : ¬("set owner".take 8 = "accounts")),
      if_neg (by decide : ¬("set owner" = "set contract")),
      if_neg (by decide : ¬("set owner" = "set fee")), if_pos rfl]

/-- Witness for C10: with trivial sub-reducers over concrete state and payload
types, the action type `frobnicate` leaves a concrete state unchanged and a
`set fee` action rewrites only the fee field. -/
theorem rootReducer_frame_witness :
    rootReducer (fun a _ => a + 1) (fun l _ => l + 1) (fun e _ => e + 1)
      (fun r _ => r + 1) (RegState.mk (0 : ℕ) (0 : ℤ) 0 0 (0 : ℕ) (0 : ℕ) (0 : ℕ))
      (RegAction.mk "frobnicate" 7 8 9)
      = RegState.mk 0 0 0 0 0 0 0 ∧
    rootReducer (fun a _ => a + 1) (fun l _ => l + 1) (fun e _ => e + 1)
      (fun r _ => r + 1) (RegState.mk (0 : ℕ) (0 : ℤ) 0 0 (0 : ℕ) (0 : ℕ) (0 : ℕ))
      (RegAction.mk "set fee" 7 8 9)
      = RegState.mk 0 0 8 0 0 0 0 :=
  ⟨(rootReducer_frame _ _ _ _ _ _).1 (by decide) (by decide) (by decide)
      (by decide) (by decide) (by decide) (by decide),
    (rootReducer_frame _ _ _ _ _ _).2.2.1 rfl⟩
